import Mathlib

/-!
Verification of the Northwind data-access layer.

This file is a shallow embedding of the schema-and-seed loader
(`NorthwindDatabase.setup_database` / `insert_sample_data`), the generic
query functions (`DatabasePlugin.execute_query`, `get_table_schema`) and
the analytics functions (`AnalyticsPlugin.analyze_sales_by_category`,
`get_top_products`) of the repository, together with proofs of the
specified properties.

Embedding conventions:
* The SQLite store is a record of eleven row lists, one per table.
* `INSERT OR IGNORE` is insert-if-primary-key-absent; `CREATE TABLE IF NOT
  EXISTS` does not change row data and is the identity on the store record.
* REAL-typed money columns hold exact decimal values in the seed
  (prices with at most two decimals, discounts with at most two decimals),
  so they are embedded in fixed point: `UnitPrice` in hundredths (cents)
  and `Discount` in hundredths.  A line revenue
  `UnitPrice * Quantity * (1 - Discount)` is then represented by the
  integer `priceC * qty * (100 - discH)`, which is exactly 10000 times the
  rational value; the lemma `lineRevenueS_cast` records this, so order and
  zero-ness of revenues transfer between the two representations.
* `pd.read_sql_query` plus the surrounding connection handling is embedded
  by a small statement language with one form per transaction-control
  class of the Python driver — a read (`SELECT COUNT(*) FROM t`), DML
  (`DELETE FROM t`) and DDL (`DROP TABLE t`) — a total word-level reader
  that rejects everything else as a syntax error, and an evaluator that
  runs the statement against the connection's view of the store.  Under
  the driver's default (legacy) transaction control an implicit
  transaction is opened only for DML; the code never calls
  `conn.commit()`, so closing rolls the DML transaction back, while DDL
  runs in autocommit mode and its effect is durable.
* `PRAGMA table_info({table_name})` is embedded with its two paths: a
  name the pragma reads as a plain identifier resolves case-insensitively
  against the schema (empty column list when absent), and any other name
  makes the pragma fail to prepare, which `get_table_schema` converts to
  marker-prefixed error text.  The identifier check is conservative
  (ASCII identifiers that are not SQL keywords); no theorem quantifies
  over the spellings it excludes.
-/

/-- A row of `Categories` (`CategoryID INTEGER PRIMARY KEY`,
`CategoryName TEXT NOT NULL`, `Description TEXT`). -/
structure CategoryRow where
  categoryID : Int
  categoryName : String
  description : String
deriving DecidableEq

/-- A row of `Suppliers`. -/
structure SupplierRow where
  supplierID : Int
  companyName : String
  contactName : String
  country : String
deriving DecidableEq

/-- A row of `Products`; `unitPriceC` is `UnitPrice` in hundredths. -/
structure ProductRow where
  productID : Int
  productName : String
  categoryID : Int
  supplierID : Int
  unitPriceC : Int
  unitsInStock : Int
deriving DecidableEq

/-- A row of `Customers` (text primary key). -/
structure CustomerRow where
  customerID : String
  companyName : String
  contactName : String
  country : String
  city : String
deriving DecidableEq

/-- A row of `Employees`. -/
structure EmployeeRow where
  employeeID : Int
  firstName : String
  lastName : String
  title : String
  hireDate : String
  country : String
deriving DecidableEq

/-- A row of `Shippers`. -/
structure ShipperRow where
  shipperID : Int
  companyName : String
  phone : String
deriving DecidableEq

/-- A row of `Orders`. -/
structure OrderRow where
  orderID : Int
  customerID : String
  employeeID : Int
  orderDate : String
  shipperID : Int
  shipCountry : String
deriving DecidableEq

/-- A row of `OrderDetails`; `unitPriceC` is `UnitPrice` in hundredths and
`discountH` is `Discount` in hundredths. -/
structure OrderDetailRow where
  orderID : Int
  productID : Int
  unitPriceC : Int
  quantity : Int
  discountH : Int
deriving DecidableEq

/-- A row of `Region`. -/
structure RegionRow where
  regionID : Int
  regionDescription : String
deriving DecidableEq

/-- A row of `Territories`. -/
structure TerritoryRow where
  territoryID : String
  territoryDescription : String
  regionID : Int
deriving DecidableEq

/-- A row of `EmployeeTerritories`. -/
structure EmployeeTerritoryRow where
  employeeID : Int
  territoryID : String
deriving DecidableEq

/-- The SQLite store: the row contents of the eleven Northwind tables. -/
structure Store where
  categories : List CategoryRow
  suppliers : List SupplierRow
  products : List ProductRow
  customers : List CustomerRow
  employees : List EmployeeRow
  shippers : List ShipperRow
  orders : List OrderRow
  orderDetails : List OrderDetailRow
  region : List RegionRow
  territories : List TerritoryRow
  employeeTerritories : List EmployeeTerritoryRow
deriving DecidableEq

/-- The store of a fresh database file: all tables empty. -/
def Store.empty : Store :=
  Store.mk [] [] [] [] [] [] [] [] [] [] []

/-- Does the table hold a row with the same primary key as `r`? -/
def keyMem {α κ : Type} [DecidableEq κ] (key : α → κ) (t : List α) (r : α) : Bool :=
  t.any fun x => key x == key r

/-- The `INSERT OR IGNORE` step: append the row unless its primary key is taken. -/
def insOrIgnore {α κ : Type} [DecidableEq κ] (key : α → κ) (t : List α) (r : α) : List α :=
  if keyMem key t r then t else t ++ [r]

/-- The `cursor.executemany('INSERT OR IGNORE ...', rs)` step: insert each row in order. -/
def insertAll {α κ : Type} [DecidableEq κ] (key : α → κ) (t : List α) (rs : List α) : List α :=
  rs.foldl (insOrIgnore key) t

/-- The `categories` seed list of `insert_sample_data`. -/
def seedCategories : List CategoryRow :=
  [CategoryRow.mk 1 "Beverages" "Soft drinks, coffees, teas, beers, and ales",
   CategoryRow.mk 2 "Condiments" "Sweet and savory sauces, relishes, spreads, and seasonings",
   CategoryRow.mk 3 "Dairy Products" "Cheeses",
   CategoryRow.mk 4 "Grains/Cereals" "Breads, crackers, pasta, and cereal",
   CategoryRow.mk 5 "Seafood" "Seaweed and fish"]

/-- The `suppliers` seed list of `insert_sample_data`. -/
def seedSuppliers : List SupplierRow :=
  [SupplierRow.mk 1 "Exotic Liquids" "Charlotte Cooper" "UK",
   SupplierRow.mk 2 "New Orleans Cajun Delights" "Shelley Burke" "USA",
   SupplierRow.mk 3 "Tokyo Traders" "Yoshi Nagase" "Japan",
   SupplierRow.mk 4 "Nord-Ost-Fisch" "Sven Petersen" "Germany",
   SupplierRow.mk 5 "Formaggi Fortini" "Elio Rossi" "Italy"]

/-- The `products` seed list of `insert_sample_data` (prices in hundredths). -/
def seedProducts : List ProductRow :=
  [ProductRow.mk 1 "Chai" 1 1 1800 39,
   ProductRow.mk 2 "Chang" 1 1 1900 17,
   ProductRow.mk 3 "Aniseed Syrup" 2 1 1000 13,
   ProductRow.mk 4 "Chef Anton Cajun Seasoning" 2 2 2200 53,
   ProductRow.mk 5 "Gumbo Mix" 2 2 2135 0,
   ProductRow.mk 6 "Mozzarella di Giovanni" 3 5 3480 14,
   ProductRow.mk 7 "Gorgonzola Telino" 3 5 1250 0,
   ProductRow.mk 8 "Mascarpone Fabioli" 3 5 3200 9,
   ProductRow.mk 9 "R√∏gede sild" 5 4 965 5,
   ProductRow.mk 10 "Spegesild" 5 4 1200 95]

/-- The `customers` seed list of `insert_sample_data`. -/
def seedCustomers : List CustomerRow :=
  [CustomerRow.mk "ALFKI" "Alfreds Futterkiste" "Maria Anders" "Germany" "Berlin",
   CustomerRow.mk "ANATR" "Ana Trujillo Emparedados" "Ana Trujillo" "Mexico" "M√©xico D.F.",
   CustomerRow.mk "BERGS" "Berglunds snabbk√∂p" "Christina Berglund" "Sweden" "Lule√•",
   CustomerRow.mk "BLAUS" "Blauer See Delikatessen" "Hanna Moos" "Germany" "Mannheim",
   CustomerRow.mk "BOLID" "B√≥lido Comidas" "Mart√≠n Sommer" "Spain" "Madrid"]

/-- The `employees` seed list of `insert_sample_data`. -/
def seedEmployees : List EmployeeRow :=
  [EmployeeRow.mk 1 "Nancy" "Davolio" "Sales Representative" "1992-05-01" "USA",
   EmployeeRow.mk 2 "Andrew" "Fuller" "Vice President, Sales" "1992-08-14" "USA",
   EmployeeRow.mk 3 "Janet" "Leverling" "Sales Representative" "1992-04-01" "USA",
   EmployeeRow.mk 4 "Margaret" "Peacock" "Sales Representative" "1993-05-03" "USA",
   EmployeeRow.mk 5 "Steven" "Buchanan" "Sales Manager" "1993-10-17" "UK"]

/-- The `shippers` seed list of `insert_sample_data`. -/
def seedShippers : List ShipperRow :=
  [ShipperRow.mk 1 "Speedy Express" "(503) 555-9831",
   ShipperRow.mk 2 "United Package" "(503) 555-3199",
   ShipperRow.mk 3 "Federal Shipping" "(503) 555-9931"]

/-- The `orders` seed list of `insert_sample_data`. -/
def seedOrders : List OrderRow :=
  [OrderRow.mk 10248 "ALFKI" 5 "1996-07-04" 3 "Germany",
   OrderRow.mk 10249 "BERGS" 6 "1996-07-05" 1 "Sweden",
   OrderRow.mk 10250 "BLAUS" 4 "1996-07-08" 2 "Germany"]

/-- The `order_details` seed list of `insert_sample_data`
(prices and discounts in hundredths). -/
def seedOrderDetails : List OrderDetailRow :=
  [OrderDetailRow.mk 10248 1 1800 12 0,
   OrderDetailRow.mk 10248 2 1900 10 0,
   OrderDetailRow.mk 10249 3 1000 5 0,
   OrderDetailRow.mk 10250 4 2200 15 15]

/-- The body of `NorthwindDatabase.insert_sample_data`: one `INSERT OR IGNORE` batch per
seeded table, keyed by each table's primary key.  `Region`, `Territories`
and `EmployeeTerritories` receive no rows. -/
def insert_sample_data (s : Store) : Store :=
  Store.mk
    (insertAll (fun r => r.categoryID) s.categories seedCategories)
    (insertAll (fun r => r.supplierID) s.suppliers seedSuppliers)
    (insertAll (fun r => r.productID) s.products seedProducts)
    (insertAll (fun r => r.customerID) s.customers seedCustomers)
    (insertAll (fun r => r.employeeID) s.employees seedEmployees)
    (insertAll (fun r => r.shipperID) s.shippers seedShippers)
    (insertAll (fun r => r.orderID) s.orders seedOrders)
    (insertAll (fun r => (r.orderID, r.productID)) s.orderDetails seedOrderDetails)
    s.region
    s.territories
    s.employeeTerritories

/-- The body of `NorthwindDatabase.setup_database`: `CREATE TABLE IF NOT EXISTS` for the
eleven tables (row-neutral in this embedding) followed by
`insert_sample_data`, then commit and close. -/
def setup_database (s : Store) : Store :=
  insert_sample_data s

/-- The row counts of the eleven tables, in schema order. -/
def tableCounts (s : Store) : List Nat :=
  [s.categories.length, s.suppliers.length, s.products.length,
   s.customers.length, s.employees.length, s.shippers.length,
   s.orders.length, s.orderDetails.length, s.region.length,
   s.territories.length, s.employeeTerritories.length]

/-- The store obtained by running the loader on a fresh database file. -/
def seededStore : Store :=
  setup_database Store.empty

/-- Split a character stream into space-separated words (accumulator holds
the current word reversed).  This is the word structure SQLite's tokenizer
gives the statement forms embedded here. -/
def wordsAux : List Char → List Char → List (List Char)
  | [], cur => if cur.isEmpty then [] else [cur.reverse]
  | c :: cs, cur =>
    if c = ' ' then
      if cur.isEmpty then wordsAux cs [] else cur.reverse :: wordsAux cs []
    else
      wordsAux cs (c :: cur)

/-- The space-separated words of a query string. -/
def words (s : String) : List String :=
  (wordsAux s.data []).map fun l => String.mk l

/-- The statement forms of the embedded query language: a read
(`SELECT COUNT(*)`), a data-modifying statement (`DELETE`), and a
schema-modifying DDL statement (`DROP TABLE`), representing the three
transaction-control classes of the Python driver. -/
inductive Stmt where
  | countAll (table : String)
  | deleteAll (table : String)
  | dropTable (table : String)
deriving DecidableEq

/-- Read a query string into a statement, or report a syntax error, as
SQLite's prepare step does for text that is not a statement it knows. -/
def readStmt (q : String) : Except String Stmt :=
  match words q with
  | ["SELECT", "COUNT(*)", "FROM", t] => Except.ok (Stmt.countAll t)
  | ["DELETE", "FROM", t] => Except.ok (Stmt.deleteAll t)
  | ["DROP", "TABLE", t] => Except.ok (Stmt.dropTable t)
  | w :: _ => Except.error ("near \"" ++ w ++ "\": syntax error")
  | [] => Except.error "syntax error: empty query"

/-- Is the statement DDL? Under Python sqlite3's default (legacy)
transaction control, an implicit transaction is opened only before
INSERT / UPDATE / DELETE / REPLACE; DDL such as `DROP TABLE` executes in
autocommit mode and its effect is durable immediately. -/
def Stmt.isDDL : Stmt → Bool
  | Stmt.dropTable _ => true
  | _ => false

/-- The row count of the named table, or `none` when no such table exists. -/
def rowCountOf (s : Store) (t : String) : Option Nat :=
  if t = "Categories" then some s.categories.length
  else if t = "Suppliers" then some s.suppliers.length
  else if t = "Products" then some s.products.length
  else if t = "Customers" then some s.customers.length
  else if t = "Employees" then some s.employees.length
  else if t = "Shippers" then some s.shippers.length
  else if t = "Orders" then some s.orders.length
  else if t = "OrderDetails" then some s.orderDetails.length
  else if t = "Region" then some s.region.length
  else if t = "Territories" then some s.territories.length
  else if t = "EmployeeTerritories" then some s.employeeTerritories.length
  else none

/-- Delete every row of the named table, or `none` when no such table
exists. -/
def clearTable (s : Store) (t : String) : Option Store :=
  if t = "Categories" then some (Store.mk [] s.suppliers s.products s.customers s.employees s.shippers s.orders s.orderDetails s.region s.territories s.employeeTerritories)
  else if t = "Suppliers" then some (Store.mk s.categories [] s.products s.customers s.employees s.shippers s.orders s.orderDetails s.region s.territories s.employeeTerritories)
  else if t = "Products" then some (Store.mk s.categories s.suppliers [] s.customers s.employees s.shippers s.orders s.orderDetails s.region s.territories s.employeeTerritories)
  else if t = "Customers" then some (Store.mk s.categories s.suppliers s.products [] s.employees s.shippers s.orders s.orderDetails s.region s.territories s.employeeTerritories)
  else if t = "Employees" then some (Store.mk s.categories s.suppliers s.products s.customers [] s.shippers s.orders s.orderDetails s.region s.territories s.employeeTerritories)
  else if t = "Shippers" then some (Store.mk s.categories s.suppliers s.products s.customers s.employees [] s.orders s.orderDetails s.region s.territories s.employeeTerritories)
  else if t = "Orders" then some (Store.mk s.categories s.suppliers s.products s.customers s.employees s.shippers [] s.orderDetails s.region s.territories s.employeeTerritories)
  else if t = "OrderDetails" then some (Store.mk s.categories s.suppliers s.products s.customers s.employees s.shippers s.orders [] s.region s.territories s.employeeTerritories)
  else if t = "Region" then some (Store.mk s.categories s.suppliers s.products s.customers s.employees s.shippers s.orders s.orderDetails [] s.territories s.employeeTerritories)
  else if t = "Territories" then some (Store.mk s.categories s.suppliers s.products s.customers s.employees s.shippers s.orders s.orderDetails s.region [] s.employeeTerritories)
  else if t = "EmployeeTerritories" then some (Store.mk s.categories s.suppliers s.products s.customers s.employees s.shippers s.orders s.orderDetails s.region s.territories [])
  else none

/-- A result row of the embedded query language: column name / value pairs. -/
def QRow : Type := List (String × Int)

instance : DecidableEq QRow := by
  unfold QRow
  infer_instance

/-- Run one statement against the open connection: the first component is
what `pd.read_sql_query` produces (rows, or the exception text), the
second is the connection's view of the store after the statement, and the
third is whether the driver ran the statement in autocommit mode (reads
and DDL) rather than inside the implicit transaction it opens for DML.
A statement that returns no rows makes `pd.read_sql_query` raise even
though its change went through.  `DROP TABLE` is tracked at the row level:
the dropped table's rows are gone (table existence itself is not
modelled). -/
def runStmt (s : Store) : Stmt → Except String (List QRow) × Store × Bool
  | Stmt.countAll t =>
    match rowCountOf s t with
    | some n => (Except.ok [[("COUNT(*)", (n : Int))]], s, true)
    | none => (Except.error ("no such table: " ++ t), s, true)
  | Stmt.deleteAll t =>
    match clearTable s t with
    | some s2 => (Except.error "statement returns no result rows", s2, false)
    | none => (Except.error ("no such table: " ++ t), s, false)
  | Stmt.dropTable t =>
    match clearTable s t with
    | some s2 => (Except.error "statement returns no result rows", s2, true)
    | none => (Except.error ("no such table: " ++ t), s, true)

/-- What `pd.read_sql_query query conn` yields inside `execute_query`:
the read result, the connection's store view, and the autocommit flag. -/
def evalQuery (s : Store) (q : String) : Except String (List QRow) × Store × Bool :=
  match readStmt q with
  | Except.error e => (Except.error e, s, false)
  | Except.ok st => runStmt s st

/-- Closing the connection: an uncommitted implicit transaction is rolled
back, so the store keeps its original contents; a change the driver
already committed (autocommit mode) stays. -/
def closeConn (orig tx : Store) (committed : Bool) : Store :=
  if committed then tx else orig

/-- Serialize one result row as a JSON object. -/
def qrowToJson (r : QRow) : String :=
  "\x7b" ++ String.intercalate ", " (r.map fun p => "\"" ++ p.1 ++ "\": " ++ toString p.2) ++ "\x7d"

/-- Serialize result rows as a JSON array of objects, the shape
`df.to_json(orient='records')` returns. -/
def rowsToJson (rows : List QRow) : String :=
  "[" ++ String.intercalate ", " (rows.map qrowToJson) ++ "]"

/-- The body of `DatabasePlugin.execute_query`: run the query, serialize
the rows as JSON on success, and turn any exception into marker-prefixed
text.  The code never calls `conn.commit()`, so closing discards the
implicit DML transaction; what the driver ran in autocommit mode (DDL) is
already durable. -/
def execute_query (s : Store) (q : String) : String × Store :=
  match evalQuery s q with
  | (Except.ok rows, tx, auto) => (rowsToJson rows, closeConn s tx auto)
  | (Except.error e, tx, auto) => ("Error executing query: " ++ e, closeConn s tx auto)

/-- The claim that the run-query operation can never change the stored
table contents, for any query string. -/
def executeQueryNeverChangesStore : Prop :=
  ∀ (s : Store) (q : String), (execute_query s q).2 = s

/-- Marker detection on returned text: does `s` begin with `p`? -/
def beginsWith (p s : String) : Bool :=
  p.data.isPrefixOf s.data

deriving instance DecidableEq for Except

/-- One row of SQLite's `PRAGMA table_info`: column id, name, declared
type, whether an explicit `NOT NULL` constraint was declared, the declared
default value, and the position in the primary key (0 when not part of
it).  `notnull` is set only by an explicit `NOT NULL` in the declaration;
a bare `INTEGER PRIMARY KEY` column does not set it. -/
structure ColInfo where
  cid : Nat
  colName : String
  colType : String
  notnull : Bool
  dflt : Option String
  pk : Nat
deriving DecidableEq

/-- The eleven `CREATE TABLE` declarations of `setup_database`, as
`PRAGMA table_info` reports them, keyed by table name. -/
def schemaTables : List (String × List ColInfo) :=
  [("Categories",
    [ColInfo.mk 0 "CategoryID" "INTEGER" false none 1,
     ColInfo.mk 1 "CategoryName" "TEXT" true none 0,
     ColInfo.mk 2 "Description" "TEXT" false none 0]),
   ("Suppliers",
    [ColInfo.mk 0 "SupplierID" "INTEGER" false none 1,
     ColInfo.mk 1 "CompanyName" "TEXT" true none 0,
     ColInfo.mk 2 "ContactName" "TEXT" false none 0,
     ColInfo.mk 3 "Country" "TEXT" false none 0]),
   ("Products",
    [ColInfo.mk 0 "ProductID" "INTEGER" false none 1,
     ColInfo.mk 1 "ProductName" "TEXT" true none 0,
     ColInfo.mk 2 "CategoryID" "INTEGER" false none 0,
     ColInfo.mk 3 "SupplierID" "INTEGER" false none 0,
     ColInfo.mk 4 "UnitPrice" "REAL" false none 0,
     ColInfo.mk 5 "UnitsInStock" "INTEGER" false none 0]),
   ("Customers",
    [ColInfo.mk 0 "CustomerID" "TEXT" false none 1,
     ColInfo.mk 1 "CompanyName" "TEXT" true none 0,
     ColInfo.mk 2 "ContactName" "TEXT" false none 0,
     ColInfo.mk 3 "Country" "TEXT" false none 0,
     ColInfo.mk 4 "City" "TEXT" false none 0]),
   ("Employees",
    [ColInfo.mk 0 "EmployeeID" "INTEGER" false none 1,
     ColInfo.mk 1 "FirstName" "TEXT" true none 0,
     ColInfo.mk 2 "LastName" "TEXT" true none 0,
     ColInfo.mk 3 "Title" "TEXT" false none 0,
     ColInfo.mk 4 "HireDate" "DATE" false none 0,
     ColInfo.mk 5 "Country" "TEXT" false none 0]),
   ("Shippers",
    [ColInfo.mk 0 "ShipperID" "INTEGER" false none 1,
     ColInfo.mk 1 "CompanyName" "TEXT" true none 0,
     ColInfo.mk 2 "Phone" "TEXT" false none 0]),
   ("Orders",
    [ColInfo.mk 0 "OrderID" "INTEGER" false none 1,
     ColInfo.mk 1 "CustomerID" "TEXT" false none 0,
     ColInfo.mk 2 "EmployeeID" "INTEGER" false none 0,
     ColInfo.mk 3 "OrderDate" "DATE" false none 0,
     ColInfo.mk 4 "ShipperID" "INTEGER" false none 0,
     ColInfo.mk 5 "ShipCountry" "TEXT" false none 0]),
   ("OrderDetails",
    [ColInfo.mk 0 "OrderID" "INTEGER" false none 1,
     ColInfo.mk 1 "ProductID" "INTEGER" false none 2,
     ColInfo.mk 2 "UnitPrice" "REAL" false none 0,
     ColInfo.mk 3 "Quantity" "INTEGER" false none 0,
     ColInfo.mk 4 "Discount" "REAL" false none 0]),
   ("Region",
    [ColInfo.mk 0 "RegionID" "INTEGER" false none 1,
     ColInfo.mk 1 "RegionDescription" "TEXT" true none 0]),
   ("Territories",
    [ColInfo.mk 0 "TerritoryID" "TEXT" false none 1,
     ColInfo.mk 1 "TerritoryDescription" "TEXT" true none 0,
     ColInfo.mk 2 "RegionID" "INTEGER" false none 0]),
   ("EmployeeTerritories",
    [ColInfo.mk 0 "EmployeeID" "INTEGER" false none 1,
     ColInfo.mk 1 "TerritoryID" "TEXT" false none 2])]

/-- The table names of the schema, in creation order. -/
def tableNames : List String :=
  schemaTables.map Prod.fst

/-- The code point of a character with ASCII lower case folded to upper
case; SQLite's identifier and keyword matching is case-insensitive for
ASCII only. -/
def charUpperNat (c : Char) : Nat :=
  if 97 ≤ c.toNat && c.toNat ≤ 122 then c.toNat - 32 else c.toNat

/-- A string as its case-folded code points, for case-insensitive
comparison. -/
def strUpperNats (s : String) : List Nat :=
  s.data.map charUpperNat

/-- The SQL keywords of SQLite's lexer.  A name that case-insensitively
matches one of these is not treated as a plain identifier here (for some
of them SQLite itself would still fall back to an identifier reading, so
this list is conservative: it only shrinks the set of names the embedding
promises to resolve). -/
def sqliteKeywords : List String :=
  ["ABORT", "ACTION", "ADD", "AFTER", "ALL", "ALTER", "ALWAYS", "ANALYZE",
   "AND", "AS", "ASC", "ATTACH", "AUTOINCREMENT", "BEFORE", "BEGIN",
   "BETWEEN", "BY", "CASCADE", "CASE", "CAST", "CHECK", "COLLATE",
   "COLUMN", "COMMIT", "CONFLICT", "CONSTRAINT", "CREATE", "CROSS",
   "CURRENT", "CURRENT_DATE", "CURRENT_TIME", "CURRENT_TIMESTAMP",
   "DATABASE", "DEFAULT", "DEFERRABLE", "DEFERRED", "DELETE", "DESC",
   "DETACH", "DISTINCT", "DO", "DROP", "EACH", "ELSE", "END", "ESCAPE",
   "EXCEPT", "EXCLUDE", "EXCLUSIVE", "EXISTS", "EXPLAIN", "FAIL",
   "FILTER", "FIRST", "FOLLOWING", "FOR", "FOREIGN", "FROM", "FULL",
   "GENERATED", "GLOB", "GROUP", "GROUPS", "HAVING", "IF", "IGNORE",
   "IMMEDIATE", "IN", "INDEX", "INDEXED", "INITIALLY", "INNER", "INSERT",
   "INSTEAD", "INTERSECT", "INTO", "IS", "ISNULL", "JOIN", "KEY", "LAST",
   "LEFT", "LIKE", "LIMIT", "MATCH", "MATERIALIZED", "NATURAL", "NO",
   "NOT", "NOTHING", "NOTNULL", "NULL", "NULLS", "OF", "OFFSET", "ON",
   "OR", "ORDER", "OTHERS", "OUTER", "OVER", "PARTITION", "PLAN",
   "PRAGMA", "PRECEDING", "PRIMARY", "QUERY", "RAISE", "RANGE",
   "RECURSIVE", "REFERENCES", "REGEXP", "REINDEX", "RELEASE", "RENAME",
   "REPLACE", "RESTRICT", "RETURNING", "RIGHT", "ROLLBACK", "ROW",
   "ROWS", "SAVEPOINT", "SELECT", "SET", "TABLE", "TEMP", "TEMPORARY",
   "THEN", "TIES", "TO", "TRANSACTION", "TRIGGER", "UNBOUNDED", "UNION",
   "UNIQUE", "UPDATE", "USING", "VACUUM", "VALUES", "VIEW", "VIRTUAL",
   "WHEN", "WHERE", "WINDOW", "WITH", "WITHOUT"]

/-- Is the character an ASCII identifier-start character (letter or
underscore)? -/
def isIdentStart (c : Char) : Bool :=
  (65 ≤ c.toNat && c.toNat ≤ 90) || (97 ≤ c.toNat && c.toNat ≤ 122) || c.toNat == 95

/-- Is the character an ASCII identifier character (letter, digit or
underscore)? -/
def isIdentChar (c : Char) : Bool :=
  isIdentStart c || (48 ≤ c.toNat && c.toNat ≤ 57)

/-- Does the text interpolated into `PRAGMA table_info({table_name})`
read as a plain identifier, so that the pragma prepares without a syntax
error?  The check is conservative: ASCII identifiers that are not SQL
keywords.  (SQLite additionally accepts some other spellings, such as
keywords with an identifier fallback, quoted names, numbers and non-ASCII
identifier characters; the embedding routes those to the error path, and
no theorem here quantifies over them.) -/
def isBareName (t : String) : Bool :=
  (match t.data with
   | [] => false
   | c :: cs => isIdentStart c && cs.all isIdentChar) &&
  !(sqliteKeywords.any fun k => strUpperNats k == strUpperNats t)

/-- The built-in schema tables SQLite itself answers `table_info` for,
even though they are not among the eleven created tables. -/
def builtinSchemaTables : List String :=
  ["sqlite_master", "sqlite_schema", "sqlite_temp_master", "sqlite_temp_schema"]

/-- Does the name resolve (case-insensitively, as SQLite resolves table
names) to one of the created tables or to a built-in schema table? -/
def knownTableCI (t : String) : Bool :=
  (schemaTables.any fun kv => strUpperNats kv.1 == strUpperNats t) ||
  (builtinSchemaTables.any fun n => strUpperNats n == strUpperNats t)

/-- The result of `PRAGMA table_info(t)` for an identifier `t`: the
declared columns of the (case-insensitively) named table, or the empty
list when no such table exists — the pragma reports nothing rather than
raising for a well-formed unknown name. -/
def tableInfoOf (t : String) : List ColInfo :=
  ((schemaTables.find? fun kv => strUpperNats kv.1 == strUpperNats t).map Prod.snd).getD []

/-- The column descriptor `get_table_schema` builds from one
`table_info` row: `column`, `type`, `nullable` (the negation of the
`notnull` flag) and `default`. -/
structure ColumnDescriptor where
  column : String
  colType : String
  nullable : Bool
  dflt : Option String
deriving DecidableEq

/-- The descriptor list `DatabasePlugin.get_table_schema` assembles for a
table name. -/
def get_table_schema_rows (t : String) : List ColumnDescriptor :=
  (tableInfoOf t).map fun c => ColumnDescriptor.mk c.colName c.colType (!c.notnull) c.dflt

/-- Serialize one column descriptor as a JSON object. -/
def descriptorToJson (d : ColumnDescriptor) : String :=
  "\x7b\"column\": \"" ++ d.column ++ "\", \"type\": \"" ++ d.colType ++
    "\", \"nullable\": " ++ (if d.nullable then "true" else "false") ++
    ", \"default\": " ++ (match d.dflt with | some v => "\"" ++ v ++ "\"" | none => "null") ++ "\x7d"

/-- The body of `DatabasePlugin.get_table_schema`: interpolate the name
into `PRAGMA table_info({table_name})`; when that prepares, `json.dumps`
of the descriptor list, and when it raises (the name is not an
identifier), the exception converted to marker-prefixed text by the
`except` clause. -/
def get_table_schema (t : String) : String :=
  match isBareName t with
  | true => "[" ++ String.intercalate ", " ((get_table_schema_rows t).map descriptorToJson) ++ "]"
  | false => "Error getting schema: near \"" ++ t ++ "\": syntax error"

/-- The claim that the describe-table operation answers every absent
table name with an empty descriptor list. -/
def unknownTableAlwaysEmptySchema : Prop :=
  ∀ t : String, t ∉ tableNames → get_table_schema t = "[]"

/-- C8 as the claim states it: the four named descriptors of the products
table carry the flags ProductID not nullable, ProductName not nullable,
CategoryID nullable, SupplierID nullable. -/
def productsSchemaPerClaim : Prop :=
  (∃ d ∈ get_table_schema_rows "Products", d.column = "ProductID" ∧ d.nullable = false) ∧
  (∃ d ∈ get_table_schema_rows "Products", d.column = "ProductName" ∧ d.nullable = false) ∧
  (∃ d ∈ get_table_schema_rows "Products", d.column = "CategoryID" ∧ d.nullable = true) ∧
  (∃ d ∈ get_table_schema_rows "Products", d.column = "SupplierID" ∧ d.nullable = true)

/-- Insert into a sorted list: stable insertion before the first element
the new one may precede. -/
def insertSorted {α : Type} (le : α → α → Bool) (x : α) : List α → List α
  | [] => [x]
  | y :: ys => if le x y then x :: y :: ys else y :: insertSorted le x ys

/-- Stable insertion sort by a Boolean "comes no later than" relation;
the deterministic order SQLite's sorter produces for the queries here. -/
def sortBy {α : Type} (le : α → α → Bool) : List α → List α
  | [] => []
  | x :: xs => insertSorted le x (sortBy le xs)

/-- The distinct values of a list (each value once). -/
def dedupKeys {α : Type} [DecidableEq α] : List α → List α
  | [] => []
  | x :: xs => if x ∈ xs then dedupKeys xs else x :: dedupKeys xs

/-- SQL `SUM` over a column of nullable values: nulls are skipped and the
sum of no non-null values is `NULL`. -/
def sqlSum {α : Type} (f : α → Int) : List (Option α) → Option Int
  | [] => none
  | none :: xs => sqlSum f xs
  | some x :: xs =>
    match sqlSum f xs with
    | none => some (f x)
    | some a => some (f x + a)

/-- The scaled revenue of an order line:
`UnitPrice * Quantity * (1 - Discount)` in the fixed-point embedding,
exactly 10000 times the rational value (`lineRevenueS_cast`). -/
def lineRevenueS (od : OrderDetailRow) : Int :=
  od.unitPriceC * od.quantity * (100 - od.discountH)

/-- The revenue of an order line as the spec words it: unit price times
quantity times one minus the discount fraction, in rational arithmetic. -/
def lineRevenueQ (od : OrderDetailRow) : ℚ :=
  ((od.unitPriceC : ℚ) / 100) * (od.quantity : ℚ) * (1 - (od.discountH : ℚ) / 100)

/-- The order lines of a product (the `LEFT JOIN OrderDetails` matches). -/
def productLines (s : Store) (p : ProductRow) : List OrderDetailRow :=
  s.orderDetails.filter fun od => od.productID == p.productID

/-- The rowset of `FROM Products p JOIN Categories c ON p.CategoryID = c.CategoryID
LEFT JOIN OrderDetails od ON p.ProductID = od.ProductID`: per joined
product the line, or a single null row when the product has no lines. -/
def topJoined (s : Store) : List (String × String × Option OrderDetailRow) :=
  s.products.flatMap fun p =>
    (s.categories.filter fun c => c.categoryID == p.categoryID).flatMap fun c =>
      match productLines s p with
      | [] => [(p.productName, c.categoryName, none)]
      | ls => ls.map fun od => (p.productName, c.categoryName, some od)

/-- Strict lexicographic order on character lists by code point; for
UTF-8 encoded text this coincides with SQLite's byte-order (BINARY)
collation. -/
def charListLT : List Char → List Char → Bool
  | _, [] => false
  | [], _ :: _ => true
  | a :: as, b :: bs =>
    if a.toNat < b.toNat then true
    else if b.toNat < a.toNat then false
    else charListLT as bs

/-- Strict BINARY-collation order on strings. -/
def strLTb (a b : String) : Bool :=
  charListLT a.data b.data

/-- Reflexive BINARY-collation order on strings. -/
def strLEb (a b : String) : Bool :=
  strLTb a b || a == b

/-- Ascending order on the `GROUP BY p.ProductName, c.CategoryName` key. -/
def tpKeyLE (a b : String × String) : Bool :=
  strLTb a.1 b.1 || (a.1 == b.1 && strLEb a.2 b.2)

/-- A result row of `get_top_products`: product name, category name, and
the two nullable sums (`SUM` over an empty group is null). -/
structure TPRow where
  productName : String
  categoryName : String
  totalQuantitySold : Option Int
  totalRevenueS : Option Int
deriving DecidableEq

/-- The `ORDER BY TotalRevenue DESC` order: larger revenue first, null revenue last
(null orders below every value, so descending puts it at the end), ties
broken by the ascending name order the grouping engine hands the sorter. -/
def tpLE (a b : TPRow) : Bool :=
  (match b.totalRevenueS, a.totalRevenueS with
   | none, some _ => true
   | some x, some y => decide (x < y)
   | _, _ => false) ||
  (a.totalRevenueS == b.totalRevenueS && strLEb a.productName b.productName)

/-- The grouped, aggregated rows of the top-products query, before
`ORDER BY` and `LIMIT`: one row per `(ProductName, CategoryName)` group
key, keys in ascending order. -/
def topGrouped (s : Store) : List TPRow :=
  (sortBy tpKeyLE (dedupKeys ((topJoined s).map fun r => (r.1, r.2.1)))).map fun k =>
    let ls := ((topJoined s).filter fun r => r.1 == k.1 && r.2.1 == k.2).map fun r => r.2.2
    TPRow.mk k.1 k.2 (sqlSum (fun od => od.quantity) ls) (sqlSum lineRevenueS ls)

/-- The body of `AnalyticsPlugin.get_top_products` at the row level: group, aggregate,
order by total revenue descending, truncate to `limit` rows. -/
def get_top_products_rows (s : Store) (limit : Nat) : List TPRow :=
  (sortBy tpLE (topGrouped s)).take limit

/-- The result of `get_top_products` with its default argument `limit = 10`. -/
def get_top_products_rows_default (s : Store) : List TPRow :=
  get_top_products_rows s 10

/-- The fully ordered top-products rows of the seeded store. -/
def expectedTopRows : List TPRow :=
  [TPRow.mk "Chef Anton Cajun Seasoning" "Condiments" (some 15) (some 2805000),
   TPRow.mk "Chai" "Beverages" (some 12) (some 2160000),
   TPRow.mk "Chang" "Beverages" (some 10) (some 1900000),
   TPRow.mk "Aniseed Syrup" "Condiments" (some 5) (some 500000),
   TPRow.mk "Gorgonzola Telino" "Dairy Products" none none,
   TPRow.mk "Gumbo Mix" "Condiments" none none,
   TPRow.mk "Mascarpone Fabioli" "Dairy Products" none none,
   TPRow.mk "Mozzarella di Giovanni" "Dairy Products" none none,
   TPRow.mk "R√∏gede sild" "Seafood" none none,
   TPRow.mk "Spegesild" "Seafood" none none]

/-- C4 as the claim states it: every seeded product with no order lines
appears in the default top-products result with zero total quantity and
zero total revenue. -/
def zeroLineProductsContributeZero : Prop :=
  ∀ p ∈ seededStore.products, productLines seededStore p = [] →
    ∃ r ∈ get_top_products_rows_default seededStore,
      r.productName = p.productName ∧
      r.totalQuantitySold = some 0 ∧ r.totalRevenueS = some 0

/-- A result row of `analyze_sales_by_category`: category name, line
count (`COUNT(od.OrderID)`), total quantity, total revenue (scaled), and
`AVG` = sum / count (also scaled, as a rational). -/
structure CatSalesRow where
  categoryName : String
  totalOrders : Nat
  totalQuantity : Int
  totalRevenueS : Int
  avgOrderValueS : ℚ

/-- The rowset of `FROM OrderDetails od JOIN Products p ON od.ProductID = p.ProductID
JOIN Categories c ON p.CategoryID = c.CategoryID`: the joined rowset,
tagged with the group key `c.CategoryName`. -/
def salesJoined (s : Store) : List (String × OrderDetailRow) :=
  s.orderDetails.flatMap fun od =>
    (s.products.filter fun p => p.productID == od.productID).flatMap fun p =>
      (s.categories.filter fun c => c.categoryID == p.categoryID).map fun c =>
        (c.categoryName, od)

/-- The `ORDER BY TotalRevenue DESC` order for the category rollup (no secondary
key in the query; the stable sorter keeps the grouping's name order). -/
def catSalesLE (a b : CatSalesRow) : Bool :=
  decide (b.totalRevenueS ≤ a.totalRevenueS)

/-- The body of `AnalyticsPlugin.analyze_sales_by_category` at the row level: join,
group by category name (keys ascending), aggregate count / sums / average,
order by total revenue descending. -/
def analyze_sales_rows (s : Store) : List CatSalesRow :=
  sortBy catSalesLE
    ((sortBy strLEb (dedupKeys ((salesJoined s).map Prod.fst))).map fun k =>
      let ls := ((salesJoined s).filter fun r => r.1 == k).map Prod.snd
      CatSalesRow.mk k ls.length ((ls.map fun od => od.quantity).sum)
        ((ls.map lineRevenueS).sum)
        (((ls.map lineRevenueS).sum : ℚ) / (ls.length : ℚ)))

/-- The order lines belonging to a category: lines whose product is in the
category (the spec-side reading of the rollup's join). -/
def categoryLines (s : Store) (c : CategoryRow) : List OrderDetailRow :=
  s.orderDetails.filter fun od =>
    (s.products.filter fun p => p.productID == od.productID).any fun p =>
      p.categoryID == c.categoryID

/-- A category's revenue in the spec's own terms: the sum over its order
lines of unit price times quantity times one minus the discount. -/
def categoryRevenueQ (s : Store) (c : CategoryRow) : ℚ :=
  ((categoryLines s c).map lineRevenueQ).sum

/-- The Beverages result row of the seeded rollup. -/
def bevSalesRow : CatSalesRow :=
  CatSalesRow.mk "Beverages" 2 22 4060000 (((4060000 : Int) : ℚ) / ((2 : Nat) : ℚ))

/-- The Condiments result row of the seeded rollup. -/
def condSalesRow : CatSalesRow :=
  CatSalesRow.mk "Condiments" 2 20 3305000 (((3305000 : Int) : ℚ) / ((2 : Nat) : ℚ))

theorem keyMem_insOrIgnore_of {α κ : Type} [DecidableEq κ] (key : α → κ)
    (t : List α) (r r' : α) (h : keyMem key t r = true) :
    keyMem key (insOrIgnore key t r') r = true := by
  unfold insOrIgnore
  split
  · exact h
  · unfold keyMem at h ⊢
    simp only [List.any_append]
    simp [h]

theorem keyMem_insOrIgnore_self {α κ : Type} [DecidableEq κ] (key : α → κ)
    (t : List α) (r : α) : keyMem key (insOrIgnore key t r) r = true := by
  unfold insOrIgnore
  split
  · assumption
  · unfold keyMem
    simp [List.any_append]

theorem insertAll_cons {α κ : Type} [DecidableEq κ] (key : α → κ)
    (t : List α) (r : α) (rs : List α) :
    insertAll key t (r :: rs) = insertAll key (insOrIgnore key t r) rs := rfl

theorem keyMem_insertAll_of {α κ : Type} [DecidableEq κ] (key : α → κ)
    (t : List α) (rs : List α) (r : α) (h : keyMem key t r = true) :
    keyMem key (insertAll key t rs) r = true := by
  induction rs generalizing t with
  | nil => exact h
  | cons a as ih =>
    rw [insertAll_cons]
    exact ih _ (keyMem_insOrIgnore_of key t r a h)

theorem keyMem_insertAll_of_mem {α κ : Type} [DecidableEq κ] (key : α → κ)
    (t : List α) (rs : List α) (r : α) (h : r ∈ rs) :
    keyMem key (insertAll key t rs) r = true := by
  induction rs generalizing t with
  | nil => cases h
  | cons a as ih =>
    rw [insertAll_cons]
    rcases List.mem_cons.mp h with h1 | h2
    · subst h1
      exact keyMem_insertAll_of key _ as r (keyMem_insOrIgnore_self key t r)
    · exact ih _ h2

theorem insertAll_of_all_present {α κ : Type} [DecidableEq κ] (key : α → κ)
    (t : List α) (rs : List α) (h : ∀ r ∈ rs, keyMem key t r = true) :
    insertAll key t rs = t := by
  induction rs with
  | nil => rfl
  | cons a as ih =>
    rw [insertAll_cons]
    have ha : insOrIgnore key t a = t := by
      unfold insOrIgnore
      simp [h a (List.mem_cons_self a as)]
    rw [ha]
    exact ih fun r hr => h r (List.mem_cons_of_mem a hr)

/-- Re-inserting the same batch is a no-op: every key is already present. -/
theorem insertAll_idem {α κ : Type} [DecidableEq κ] (key : α → κ)
    (t : List α) (rs : List α) :
    insertAll key (insertAll key t rs) rs = insertAll key t rs :=
  insertAll_of_all_present key _ rs fun r hr => keyMem_insertAll_of_mem key t rs r hr

/-- Running the loader twice produces the very same store as running it once. -/
theorem setup_database_idem (s : Store) :
    setup_database (setup_database s) = setup_database s := by
  unfold setup_database insert_sample_data
  simp only [insertAll_idem]

/-- C2: The schema-and-seed loader is idempotent: for every store, invoking
the loader twice against the same store succeeds without error (the
embedded loader is a total function) and yields exactly the same row counts
in every one of the eleven tables as invoking it once, because every insert
uses insert-if-absent semantics and every table creation is
create-if-not-exists. -/
theorem c2_setup_database_idempotent (s : Store) :
    tableCounts (setup_database (setup_database s)) = tableCounts (setup_database s) := by
  rw [setup_database_idem]

/-- Sanity: the seeded row counts on a fresh store. -/
theorem tableCounts_seededStore :
    tableCounts seededStore = [5, 5, 10, 5, 5, 3, 3, 4, 0, 0, 0] := by decide

theorem beginsWith_append_self (p s : String) : beginsWith p (p ++ s) = true := by
  unfold beginsWith
  rw [String.data_append]
  simp [List.isPrefixOf_iff_prefix]

theorem beginsWith_error_rowsToJson (rows : List QRow) :
    beginsWith "Error" (rowsToJson rows) = false := by
  unfold rowsToJson beginsWith
  rw [String.data_append]
  show List.isPrefixOf ('E' :: "rror".data) ('[' :: _) = false
  simp [List.isPrefixOf]

/-- C1: For every query string passed to `execute_query`, the operation
returns a text result and never raises (the embedded operation is a total
function); on any execution failure the returned text is the exception
text behind the fixed marker and begins with `Error`, and on success the
returned text is the JSON serialization of the result rows and does not
begin with the error marker. -/
theorem c1_execute_query_text_contract (s : Store) (q : String) :
    (∀ e, (evalQuery s q).1 = Except.error e →
      (execute_query s q).1 = "Error executing query: " ++ e ∧
      beginsWith "Error" (execute_query s q).1 = true) ∧
    (∀ rows, (evalQuery s q).1 = Except.ok rows →
      (execute_query s q).1 = rowsToJson rows ∧
      beginsWith "Error" (execute_query s q).1 = false) := by
  have hx : execute_query s q =
      match evalQuery s q with
      | (Except.ok rows, tx, auto) => (rowsToJson rows, closeConn s tx auto)
      | (Except.error e, tx, auto) => ("Error executing query: " ++ e, closeConn s tx auto) := rfl
  rcases hq : evalQuery s q with ⟨r, tx, auto⟩
  rw [hq] at hx
  cases r with
  | ok rows =>
    refine ⟨fun e he => ?_, fun rows2 hr => ?_⟩
    · simp at he
    · have hr2 : rows = rows2 := by simpa using hr
      subst hr2
      rw [hx]
      exact ⟨rfl, beginsWith_error_rowsToJson rows⟩
  | error e0 =>
    refine ⟨fun e he => ?_, fun rows2 hr => ?_⟩
    · have he2 : e0 = e := by simpa using he
      subst he2
      rw [hx]
      refine ⟨rfl, ?_⟩
      show beginsWith "Error" ("Error executing query: " ++ e0) = true
      have h6 : "Error executing query: " = "Error" ++ " executing query: " := rfl
      have h5 : "Error executing query: " ++ e0 = "Error" ++ (" executing query: " ++ e0) := by
        rw [← String.append_assoc, ← h6]
      rw [h5]
      exact beginsWith_append_self "Error" _
    · simp at hr

/-- Witness for C1 at concrete inputs: a syntactically invalid query is
answered with marker-prefixed text, and a valid count query is answered
with the JSON rows and no marker. -/
theorem c1_execute_query_text_contract_witness :
    beginsWith "Error" (execute_query seededStore "INVALID SQL QUERY").1 = true ∧
    (execute_query seededStore "SELECT COUNT(*) FROM Products").1 =
      rowsToJson [[("COUNT(*)", 10)]] ∧
    beginsWith "Error" (execute_query seededStore "SELECT COUNT(*) FROM Products").1 = false :=
  ⟨((c1_execute_query_text_contract seededStore "INVALID SQL QUERY").1
      "near \"INVALID\": syntax error" rfl).2,
   ((c1_execute_query_text_contract seededStore "SELECT COUNT(*) FROM Products").2
      [[("COUNT(*)", 10)]] rfl).1,
   ((c1_execute_query_text_contract seededStore "SELECT COUNT(*) FROM Products").2
      [[("COUNT(*)", 10)]] rfl).2⟩

/-- C10 counterexample: the claim fails on the code for DDL.  Under the
driver's default transaction control `DROP TABLE` runs in autocommit
mode, so `execute_query` on `DROP TABLE Products` durably empties the
Products table even though the call itself returns error text (the read
of a row-less statement raises after the drop has been committed). -/
theorem c10_counterexample_drop_table_commits :
    (execute_query seededStore "DROP TABLE Products").2.products = [] ∧
    seededStore.products ≠ [] ∧
    beginsWith "Error" (execute_query seededStore "DROP TABLE Products").1 = true ∧
    ¬ executeQueryNeverChangesStore := by
  refine ⟨by decide, by decide, by decide, fun h => ?_⟩
  exact absurd (congrArg Store.products (h seededStore "DROP TABLE Products")) (by decide)

/-- C10 amended: for every query string the reader parses as a read or
a DML statement (so not as DDL), `execute_query` leaves the stored table
contents unchanged: the operation never commits, the driver wraps DML in
an implicit transaction, and closing the connection without commit
discards it; only DDL, which the driver runs in autocommit mode, escapes
this frame. -/
theorem c10_execute_query_frame_dml (s : Store) (q : String) (st : Stmt)
    (hok : readStmt q = Except.ok st) (hddl : st.isDDL = false) :
    (execute_query s q).2 = s := by
  cases st with
  | countAll t =>
    cases h2 : rowCountOf s t <;>
      simp [execute_query, evalQuery, hok, runStmt, h2, closeConn]
  | deleteAll t =>
    cases h2 : clearTable s t <;>
      simp [execute_query, evalQuery, hok, runStmt, h2, closeConn]
  | dropTable t =>
    exact absurd hddl (by simp [Stmt.isDDL])

/-- Witness for C10 at a DML statement: a `DELETE` really empties the
transaction-local view of `Orders` (`evalQuery`), yet the store the
caller holds after the call is unchanged. -/
theorem c10_execute_query_frame_dml_witness :
    (evalQuery seededStore "DELETE FROM Orders").2.1.orders = [] ∧
    seededStore.orders ≠ [] ∧
    (execute_query seededStore "DELETE FROM Orders").2 = seededStore :=
  ⟨by decide, by decide,
   c10_execute_query_frame_dml seededStore "DELETE FROM Orders"
     (Stmt.deleteAll "Orders") (by decide) (by decide)⟩

/-- C7 counterexample: the spec's query names the table `Category`, which
does not exist in the schema (the table is `Categories`), so the run-query
operation on a freshly seeded store answers it with marker-prefixed error
text, not with a count row. -/
theorem c7_counterexample_category_is_missing :
    beginsWith "Error" (execute_query seededStore "SELECT COUNT(*) FROM Category").1 = true ∧
    (evalQuery seededStore "SELECT COUNT(*) FROM Category").1 =
      Except.error "no such table: Category" := by decide

/-- C7 amended: running `SELECT COUNT(*) FROM Categories` through the
run-query operation against a freshly seeded store returns a successful
(non-error) result whose single row's count equals the number of seeded
category rows, which is 5. -/
theorem c7_count_categories_is_five :
    (execute_query seededStore "SELECT COUNT(*) FROM Categories").1 =
      rowsToJson [[("COUNT(*)", 5)]] ∧
    beginsWith "Error" (execute_query seededStore "SELECT COUNT(*) FROM Categories").1 = false ∧
    seededStore.categories.length = 5 := by decide

/-- C5 counterexample: the claim fails on the code for table names that
are not identifiers.  The name is interpolated textually into
`PRAGMA table_info({table_name})`, so a name such as `foo bar` makes the
pragma itself fail to prepare and the operation returns marker-prefixed
error text, not the empty descriptor list — even though no table of that
name exists. -/
theorem c5_counterexample_nonidentifier_name :
    beginsWith "Error" (get_table_schema "foo bar") = true ∧
    ("foo bar" ∉ tableNames) ∧
    ¬ unknownTableAlwaysEmptySchema := by
  refine ⟨by decide, by decide, fun h => ?_⟩
  exact absurd (h "foo bar" (by decide)) (by decide)

/-- C5 amended: for every table name that the pragma reads as a plain
identifier (an ASCII identifier that is not an SQL keyword) and that
resolves — case-insensitively, the way SQLite resolves table names — to
no table of the store, the built-in schema tables included, the
describe-table operation returns the serialization of a zero-length
sequence of column descriptors, not error-marker text. -/
theorem c5_unknown_bare_table_yields_empty (t : String)
    (hid : isBareName t = true) (hu : knownTableCI t = false) :
    get_table_schema t = "[]" ∧ beginsWith "Error" (get_table_schema t) = false := by
  have hany : (schemaTables.any fun kv => strUpperNats kv.1 == strUpperNats t) = false := by
    unfold knownTableCI at hu
    exact (Bool.or_eq_false_iff.mp hu).1
  have hf : (schemaTables.find? fun kv => strUpperNats kv.1 == strUpperNats t) = none := by
    rw [List.find?_eq_none]
    intro kv hkv hp
    have hc : (schemaTables.any fun kv => strUpperNats kv.1 == strUpperNats t) = true :=
      List.any_eq_true.mpr ⟨kv, hkv, hp⟩
    rw [hany] at hc
    cases hc
  have h0 : get_table_schema_rows t = [] := by
    unfold get_table_schema_rows tableInfoOf
    rw [hf]
    rfl
  have h1 : get_table_schema t = "[]" := by
    unfold get_table_schema
    rw [hid, h0]
    rfl
  refine ⟨h1, ?_⟩
  rw [h1]
  decide

/-- Witness for C5 at the identifier the public test suite probes. -/
theorem c5_unknown_bare_table_yields_empty_witness :
    (isBareName "NonExistentTable" = true ∧ knownTableCI "NonExistentTable" = false) ∧
    get_table_schema "NonExistentTable" = "[]" ∧
    beginsWith "Error" (get_table_schema "NonExistentTable") = false :=
  ⟨⟨by decide, by decide⟩,
   (c5_unknown_bare_table_yields_empty "NonExistentTable" (by decide) (by decide)).1,
   (c5_unknown_bare_table_yields_empty "NonExistentTable" (by decide) (by decide)).2⟩

/-- C8 counterexample: the claim fails on the code, because the ProductID
descriptor carries `nullable = true`: the introspection's notnull flag
records only an explicit `NOT NULL` constraint, and the declaration
`ProductID INTEGER PRIMARY KEY` has none. -/
theorem c8_counterexample_productid_nullable_flag : ¬ productsSchemaPerClaim := by
  unfold productsSchemaPerClaim
  decide

/-- C8 amended: describing the seeded Products table returns descriptors
whose names include ProductID, ProductName, CategoryID and SupplierID;
ProductName is flagged not nullable, CategoryID and SupplierID are flagged
nullable, and ProductID is also flagged nullable, because the
introspection primitive's notnull flag reflects only an explicit
`NOT NULL` constraint, which the `INTEGER PRIMARY KEY` declaration lacks
(the primary-key position is reported separately by the pragma and is not
part of the descriptor). -/
theorem c8_products_schema_descriptors :
    ((get_table_schema_rows "Products").map fun d => d.column) =
      ["ProductID", "ProductName", "CategoryID", "SupplierID", "UnitPrice", "UnitsInStock"] ∧
    (∃ d ∈ get_table_schema_rows "Products", d.column = "ProductID" ∧ d.nullable = true) ∧
    (∃ d ∈ get_table_schema_rows "Products", d.column = "ProductName" ∧ d.nullable = false) ∧
    (∃ d ∈ get_table_schema_rows "Products", d.column = "CategoryID" ∧ d.nullable = true) ∧
    (∃ d ∈ get_table_schema_rows "Products", d.column = "SupplierID" ∧ d.nullable = true) := by
  decide

/-- C6 (code bug): the seeded Orders row 10249 carries EmployeeID 6, but
no seeded employee has ID 6, so the declared foreign key
`Orders.EmployeeID REFERENCES Employees` is violated by the seed data
(SQLite does not enforce declared foreign keys unless the enforcement
pragma is switched on, so the insert goes through).  Every other
foreign-key family of the seed does reference an existing row. -/
theorem c6_employee_fk_violated :
    (∃ o ∈ seededStore.orders, o.orderID = 10249 ∧ o.employeeID = 6) ∧
    (∀ e ∈ seededStore.employees, e.employeeID ≠ 6) ∧
    (∀ o ∈ seededStore.orders, ∃ c ∈ seededStore.customers, c.customerID = o.customerID) ∧
    (∀ o ∈ seededStore.orders, ∃ sh ∈ seededStore.shippers, sh.shipperID = o.shipperID) ∧
    (∀ od ∈ seededStore.orderDetails, ∃ o ∈ seededStore.orders, o.orderID = od.orderID) ∧
    (∀ od ∈ seededStore.orderDetails, ∃ p ∈ seededStore.products, p.productID = od.productID) ∧
    (∀ p ∈ seededStore.products, ∃ c ∈ seededStore.categories, c.categoryID = p.categoryID) ∧
    (∀ p ∈ seededStore.products, ∃ su ∈ seededStore.suppliers, su.supplierID = p.supplierID) := by
  decide

theorem lineRevenueS_cast (od : OrderDetailRow) :
    ((lineRevenueS od : ℚ)) = 10000 * lineRevenueQ od := by
  unfold lineRevenueS lineRevenueQ
  push_cast
  ring

theorem topSorted_eval : sortBy tpLE (topGrouped seededStore) = expectedTopRows := by
  decide

/-- C3: For every limit (the non-negative values the claim ranges over),
the top-products operation on a freshly seeded store returns exactly
`min limit (number of seeded products)` rows, ordered by total revenue
descending with ties broken by the name ordering; `limit = 0` returns no
rows, `limit = 2` returns exactly 2 rows, a limit at least the product
count returns each seeded product's name exactly once, and the default
limit is 10. -/
theorem c3_top_products_truncation (limit : Nat) :
    (get_top_products_rows seededStore limit).length = min limit seededStore.products.length ∧
    List.Pairwise (fun a b => tpLE a b = true) (get_top_products_rows seededStore limit) ∧
    get_top_products_rows seededStore 0 = [] ∧
    (get_top_products_rows seededStore 2).length = 2 ∧
    (seededStore.products.length ≤ limit →
      ∀ p ∈ seededStore.products,
        ((get_top_products_rows seededStore limit).map fun r => r.productName).count
          p.productName = 1) ∧
    get_top_products_rows_default seededStore = get_top_products_rows seededStore 10 := by
  have hp : seededStore.products.length = 10 := by decide
  have hlen : (sortBy tpLE (topGrouped seededStore)).length = 10 := by
    rw [topSorted_eval]
    decide
  refine ⟨?_, ?_, ?_, ?_, ?_, rfl⟩
  · show (List.take limit (sortBy tpLE (topGrouped seededStore))).length = _
    rw [List.length_take, hlen, hp]
  · have hpw : List.Pairwise (fun a b => tpLE a b = true) (sortBy tpLE (topGrouped seededStore)) := by
      rw [topSorted_eval]
      decide
    exact hpw.sublist (List.take_sublist limit _)
  · rfl
  · show (List.take 2 (sortBy tpLE (topGrouped seededStore))).length = 2
    rw [List.length_take, hlen]
    decide
  · intro hlim
    rw [hp] at hlim
    have htake : List.take limit (sortBy tpLE (topGrouped seededStore)) =
        sortBy tpLE (topGrouped seededStore) := by
      apply List.take_of_length_le
      rw [hlen]
      exact hlim
    show ∀ p ∈ seededStore.products,
      ((List.take limit (sortBy tpLE (topGrouped seededStore))).map fun r => r.productName).count
        p.productName = 1
    rw [htake, topSorted_eval]
    decide

/-- Witness for C3 at `limit = 12`: ten rows come back and the seeded
product `Chai` appears exactly once among them. -/
theorem c3_top_products_truncation_witness :
    (get_top_products_rows seededStore 12).length = 10 ∧
    ((get_top_products_rows seededStore 12).map fun r => r.productName).count "Chai" = 1 :=
  ⟨((c3_top_products_truncation 12).1).trans (by decide),
   (c3_top_products_truncation 12).2.2.2.2.1 (by decide)
     (ProductRow.mk 1 "Chai" 1 1 1800 39) (by decide)⟩

/-- C4 counterexample: the claim fails on the code; the zero-line product
`Gumbo Mix` is in the result, but its row's sums are `NULL` (`SUM` over no
order lines), not zero. -/
theorem c4_counterexample_null_totals : ¬ zeroLineProductsContributeZero := by
  unfold zeroLineProductsContributeZero
  decide

/-- C4 amended: every seeded product that has zero order lines is still
included in the (default-limit) top-products result via the outer join,
and its result row carries `NULL` — not zero — as both total quantity sold
and total revenue, because SQL `SUM` over the group's single all-null
joined row is `NULL`. -/
theorem c4_zero_line_products_included_with_null (p : ProductRow)
    (hp : p ∈ seededStore.products) (hl : productLines seededStore p = []) :
    ∃ r ∈ get_top_products_rows_default seededStore,
      r.productName = p.productName ∧
      r.totalQuantitySold = none ∧ r.totalRevenueS = none := by
  revert hl
  revert p hp
  decide

/-- Witness for C4 at the zero-line product `Gumbo Mix`. -/
theorem c4_zero_line_products_included_with_null_witness :
    ∃ r ∈ get_top_products_rows_default seededStore,
      r.productName = "Gumbo Mix" ∧
      r.totalQuantitySold = none ∧ r.totalRevenueS = none :=
  c4_zero_line_products_included_with_null
    (ProductRow.mk 5 "Gumbo Mix" 2 2 2135 0) (by decide) (by decide)

theorem analyze_sales_rows_eval :
    analyze_sales_rows seededStore = [bevSalesRow, condSalesRow] := rfl

/-- C9: On the seeded store, the sales-by-category rollup has one row per
category with at least one order line (and only those); each such row
carries the category's order-line count, total quantity, total revenue
equal (at the 10000-fold fixed-point scale) to the spec-side rational sum
of unit price times quantity times one minus discount over its lines, and
the average of that per-line revenue; and the rows are ordered by total
revenue descending (the scale factor is positive, so the scaled order is
the rational order). -/
theorem c9_sales_by_category (c : CategoryRow) (hc : c ∈ seededStore.categories) :
    (((analyze_sales_rows seededStore).map fun r =>
        (r.categoryName, r.totalOrders, r.totalQuantity, r.totalRevenueS)) =
      [("Beverages", 2, 22, 4060000), ("Condiments", 2, 20, 3305000)]) ∧
    (categoryLines seededStore c ≠ [] ↔
      c.categoryName ∈ (analyze_sales_rows seededStore).map fun r => r.categoryName) ∧
    (∀ r ∈ analyze_sales_rows seededStore, r.categoryName = c.categoryName →
      r.totalOrders = (categoryLines seededStore c).length ∧
      r.totalQuantity = ((categoryLines seededStore c).map fun od => od.quantity).sum ∧
      (r.totalRevenueS : ℚ) = 10000 * categoryRevenueQ seededStore c ∧
      r.avgOrderValueS = 10000 * (categoryRevenueQ seededStore c /
        ((categoryLines seededStore c).length : ℚ))) ∧
    List.Pairwise (fun a b => b.totalRevenueS ≤ a.totalRevenueS)
      (analyze_sales_rows seededStore) := by
  have hproj : ((analyze_sales_rows seededStore).map fun r =>
      (r.categoryName, r.totalOrders, r.totalQuantity, r.totalRevenueS)) =
      [("Beverages", 2, 22, 4060000), ("Condiments", 2, 20, 3305000)] := by
    rw [analyze_sales_rows_eval]
    decide
  have hpw : List.Pairwise (fun a b => b.totalRevenueS ≤ a.totalRevenueS)
      (analyze_sales_rows seededStore) := by
    rw [analyze_sales_rows_eval]
    decide
  have hnames : ((analyze_sales_rows seededStore).map fun r => r.categoryName) =
      ["Beverages", "Condiments"] := by
    rw [analyze_sales_rows_eval]
    decide
  have hcats : seededStore.categories = seedCategories := by decide
  refine ⟨hproj, ?_, ?_, hpw⟩
  all_goals rw [hcats] at hc
  all_goals unfold seedCategories at hc
  all_goals simp only [List.mem_cons, List.not_mem_nil, or_false] at hc
  · rcases hc with hc | hc | hc | hc | hc <;> subst hc <;> rw [hnames] <;> decide
  · have hbl : categoryLines seededStore
        (CategoryRow.mk 1 "Beverages" "Soft drinks, coffees, teas, beers, and ales") =
        [OrderDetailRow.mk 10248 1 1800 12 0, OrderDetailRow.mk 10248 2 1900 10 0] := by
      decide
    have hcl : categoryLines seededStore
        (CategoryRow.mk 2 "Condiments"
          "Sweet and savory sauces, relishes, spreads, and seasonings") =
        [OrderDetailRow.mk 10249 3 1000 5 0, OrderDetailRow.mk 10250 4 2200 15 15] := by
      decide
    intro r hr hname
    rw [analyze_sales_rows_eval] at hr
    simp only [List.mem_cons, List.not_mem_nil, or_false] at hr
    rcases hc with hc | hc | hc | hc | hc <;> subst hc <;>
      rcases hr with hr | hr <;> subst hr <;>
      simp only [bevSalesRow, condSalesRow] at hname ⊢ <;>
      first
        | (exact absurd hname (by decide))
        | (refine ⟨?_, ?_, ?_, ?_⟩ <;>
            simp only [categoryRevenueQ, hbl, hcl, lineRevenueQ, List.map_cons,
              List.map_nil, List.sum_cons, List.sum_nil, List.length_cons,
              List.length_nil] <;>
            norm_num)

/-- Witness for C9 at the seeded Beverages category. -/
theorem c9_sales_by_category_witness :
    ((analyze_sales_rows seededStore).map fun r =>
      (r.categoryName, r.totalOrders, r.totalQuantity, r.totalRevenueS)) =
      [("Beverages", 2, 22, 4060000), ("Condiments", 2, 20, 3305000)] :=
  (c9_sales_by_category
    (CategoryRow.mk 1 "Beverages" "Soft drinks, coffees, teas, beers, and ales")
    (by decide)).1
